import Mathlib

/-!
Shallow embedding of `app.py` (YouTube → MP3 converter service).

The program is a FastAPI service with two conversion endpoints:

* `POST /api/convert` (`convert`): validates the URL batch, creates ONE shared
  temporary directory, then for each URL evaluates
  `for _ in asyncio.run(run_yt_dlp_stream(u, job_dir))`.  `run_yt_dlp_stream`
  is an async GENERATOR (an `async def` containing `yield`), and `asyncio.run`
  accepts only coroutines: it raises
  `ValueError: a coroutine was expected, got <async_generator …>` before any
  of the generator's body — and hence before any subprocess — runs.  The
  `except Exception` of the loop catches it, so every per-URL outcome is the
  failure dict carrying that ValueError's message, the `*.mp3` glob /
  `StopIteration` path is unreachable, the shared directory never gains a
  file, and the endpoint only ever answers 400 (validation) or the
  all-failed 500.
* `POST /api/convert/stream` (`convert_stream`): checks only non-emptiness,
  then streams the events of `run_yt_dlp_stream` per URL (fresh directory per
  URL), with a per-URL `finalizado` marker and one terminal end marker.

The external world (the `yt-dlp` subprocess and the mutagen tag library) is
modelled by explicit inputs: a `ProcResult` per invocation (stdout lines, exit
code, stderr text, files written into the output directory) and an
`EmbedBehavior` describing which exceptions the tag library raises.  All
control flow of the Python source is translated directly; text is Lean
`String`, directory contents are ordered `List DirFile` (append order =
creation order, matching the iteration order `iterdir`/`glob` expose).
-/

/-- A file in a job working directory: its base name (`Path.name`) and its
extension including the dot (`Path.suffix`). -/
structure DirFile where
  name : String
  suffix : String
deriving DecidableEq, Repr

/-- Result of one invocation of the external `yt-dlp` process: the lines it
wrote to stdout, its exit status, its stderr text, and the files it created
in the output directory (in creation order). -/
structure ProcResult where
  stdoutLines : List String
  returncode : Int
  stderr : String
  produced : List DirFile
deriving DecidableEq, Repr

/-- Exception behaviour of the mutagen tag library for one `embed_metadata`
call: `tagExc` is the exception (message) raised inside the uncaught
`EasyID3` tag-writing section, if any; `coverExc` the exception raised inside
the `try`-guarded APIC cover section, with `coverIsID3Error` telling whether
it is an `ID3Error` (the only class the `except` clause catches). -/
structure EmbedBehavior where
  tagExc : Option String
  coverExc : Option String
  coverIsID3Error : Bool
deriving DecidableEq, Repr

/-- The external world's behaviour for one URL: what the subprocess does and
what the tag library does. -/
structure UrlWorld where
  proc : ProcResult
  embed : EmbedBehavior
deriving DecidableEq, Repr

/-- One server-sent event yielded by the generators in `app.py`:
`data: {"url":…, "progress":…}`, `data: {"url":…, "error":…}`,
`data: {"url":…, "done":…}`, `data: {"url":…, "status":"finalizado"}`,
and the terminal `event: end` frame. -/
inductive Event where
  | progress (url text : String)
  | error (url msg : String)
  | done (url fileName : String)
  | finished (url : String)
  | endOfStream
deriving DecidableEq, Repr

/-- Per-URL Outcome appended to `results` in `convert`: either the selected
mp3 `Path`, or the dict `{"error": msg, "url": url}`. -/
inductive Outcome where
  | success (file : DirFile)
  | failure (url : String) (error : String)
deriving DecidableEq, Repr

/-- Response of the synchronous endpoint: `HTTPException(400, detail)`,
`JSONResponse(500, {... results})`, `FileResponse(mp3, filename, audio/mpeg)`,
or `FileResponse(zip, "descargas.zip")` with the given entry names. -/
inductive ConvertResponse where
  | badRequest (detail : String)
  | allFailed (results : List Outcome)
  | singleFile (file : DirFile) (filename : String)
  | zipArchive (entries : List String) (filename : String)
deriving DecidableEq, Repr

/-- HTTP status code of each `ConvertResponse`. -/
def ConvertResponse.status : ConvertResponse → Nat
  | .badRequest _ => 400
  | .allFailed _ => 500
  | .singleFile _ _ => 200
  | .zipArchive _ _ => 200

/-- `u.lower()` as a character list (Python `str.lower` is per-character). -/
def lowerChars (u : String) : List Char :=
  u.toList.map Char.toLower

/-- `is_allowed_url` (app.py:48): lower-case the string and test substring
containment of the two allow-listed domains (Python `in` on `str`). -/
def is_allowed_url (u : String) : Bool :=
  decide ("youtube.com".toList <:+: lowerChars u) ||
  decide ("youtu.be".toList <:+: lowerChars u)

/-- `f.suffix.lower()` as a character list. -/
def suffixLower (f : DirFile) : List Char :=
  f.suffix.toList.map Char.toLower

/-- The three `Optional` locals of the detection loop in
`run_yt_dlp_stream` (app.py:122). -/
structure Detected where
  mp3_file : Option DirFile
  info_file : Option DirFile
  thumb_file : Option DirFile
deriving DecidableEq, Repr

/-- One iteration of the detection loop (app.py:123-129): reassign the
matching category, so the LAST matching file of each category wins. -/
def detectStep (acc : Detected) (f : DirFile) : Detected :=
  if suffixLower f = ".mp3".toList then { acc with mp3_file := some f }
  else if suffixLower f = ".json".toList then { acc with info_file := some f }
  else if suffixLower f = ".jpg".toList ∨ suffixLower f = ".jpeg".toList ∨
          suffixLower f = ".webp".toList then { acc with thumb_file := some f }
  else acc

/-- `for f in outdir.iterdir(): …` (app.py:123-129). -/
def detectFiles (files : List DirFile) : Detected :=
  files.foldl detectStep ⟨none, none, none⟩

/-- `embed_metadata` (app.py:53-83), reduced to its exception behaviour (tag
field values affect only the mp3's tag bytes, which no claim mentions).
Returns the exception that escapes the call, if any: the `EasyID3` section is
unguarded, and the APIC cover section (entered only when a thumbnail exists)
catches exactly `ID3Error`. -/
def embed_metadata (thumb_file : Option DirFile) (b : EmbedBehavior) : Option String :=
  match b.tagExc with
  | some e => some e
  | none =>
    match thumb_file with
    | some _ =>
      match b.coverExc with
      | some e => if b.coverIsID3Error then none else some e
      | none => none
    | none => none

/-- Python `str.strip()`: drop leading and trailing whitespace characters. -/
def pyStrip (s : String) : String :=
  (((s.toList.dropWhile Char.isWhitespace).reverse.dropWhile Char.isWhitespace).reverse).asString

/-- Python `s[:n]`: the first `n` characters (code points) of `s`. -/
def pyTake (s : String) (n : Nat) : String :=
  (s.toList.take n).asString

/-- The progress events of the stdout loop (app.py:109-112): each line is
stripped and yielded only when non-empty. -/
def progressEvents (url : String) (lines : List String) : List Event :=
  ((lines.map pyStrip).filter (fun t => t != "")).map (Event.progress url)

/-- Result of running the `run_yt_dlp_stream` generator to completion (or to
the point where an exception escapes it): the events it yielded, the escaped
exception if any, and whether `embed_metadata` was invoked. -/
structure RunResult where
  events : List Event
  exc : Option String
  embedRan : Bool
deriving DecidableEq, Repr

/-- `run_yt_dlp_stream` (app.py:86-137) for one URL, given the subprocess
behaviour, the tag-library behaviour, and the contents of `outdir` after the
subprocess ran (in the synchronous endpoint this is the SHARED job directory,
so it may hold files from earlier URLs). -/
def run_yt_dlp_stream (url : String) (proc : ProcResult) (embed : EmbedBehavior)
    (outdir : List DirFile) : RunResult :=
  let progress := progressEvents url proc.stdoutLines
  if proc.returncode ≠ 0 then
    ⟨progress ++ [Event.error url (pyTake proc.stderr 300)], none, false⟩
  else
    let d := detectFiles outdir
    match d.mp3_file, d.info_file with
    | some m, some _ =>
      (match embed_metadata d.thumb_file embed with
       | some e => ⟨progress, some e, true⟩
       | none => ⟨progress ++ [Event.done url m.name], none, true⟩)
    | _, _ => ⟨progress ++ [Event.error url "No se generó archivo MP3"], none, false⟩

/-- Message of the `ValueError` CPython's `asyncio.run` raises when handed
something that is not a coroutine (`asyncio/runners.py`:
`raise ValueError("a coroutine was expected, got {!r}".format(main))`).
`run_yt_dlp_stream(u, job_dir)` merely CREATES an async generator object, so
in `convert` this exception fires on every iteration.  The real repr ends
with a per-run memory address (`… at 0x7f…>`), elided in the model. -/
def asyncioRunError : String :=
  "a coroutine was expected, got <async_generator object run_yt_dlp_stream>"

/-- Body of the per-URL `try` block in `convert` (app.py:165-173).
`asyncio.run(run_yt_dlp_stream(u, job_dir))` raises the `ValueError` above
before any of the generator's body (and hence any subprocess) runs; the
`except Exception` at app.py:171 catches it and records the failure dict
`{"error": str(e), "url": u}`.  The `next(job_dir.glob("*.mp3"))` line and
its `StopIteration` path are unreachable. -/
def processOutcome (u : String) : Outcome :=
  Outcome.failure u asyncioRunError

/-- One iteration of the dispatch loop in `convert` (app.py:164-173): no
subprocess is ever invoked, so the shared directory's contents are
unchanged. -/
def processUrl (u : String) (dir : List DirFile) : Outcome × List DirFile :=
  (processOutcome u, dir)

/-- The dispatch loop of `convert` (app.py:161-173): URLs in input order,
threading the single shared `job_dir` through.  The external world is never
consulted: every iteration fails inside `asyncio.run` before reaching it. -/
def dispatchAux : List String → List DirFile → List Outcome × List DirFile
  | [], dir => ([], dir)
  | u :: rest, dir =>
    let step := processUrl u dir
    let restRes := dispatchAux rest step.2
    (step.1 :: restRes.1, restRes.2)

/-- `True` iff the outcome is the failure dict (`isinstance(r, dict)`). -/
def isFailureDict : Outcome → Bool
  | .failure _ _ => true
  | .success _ => false

/-- `successful = [r for r in results if isinstance(r, Path)]` (app.py:181). -/
def successPaths (results : List Outcome) : List DirFile :=
  results.filterMap (fun r =>
    match r with
    | .success f => some f
    | .failure _ _ => none)

/-- The aggregation step of `convert` (app.py:175-191): all-dicts → 500 JSON
with the outcome list; exactly one success → direct `FileResponse` named by
the mp3's own name; otherwise → zip of the successes, each entry named
`p.name` (no directories), downloaded as `descargas.zip`. -/
def aggregate (results : List Outcome) : ConvertResponse :=
  if results.all isFailureDict then ConvertResponse.allFailed results
  else
    match successPaths results with
    | [m] => ConvertResponse.singleFile m m.name
    | ms => ConvertResponse.zipArchive (ms.map DirFile.name) "descargas.zip"

/-- `convert` (app.py:149-191): validation (empty, count, allow-list, in that
order, each aborting with a 400 before any external process runs), then the
dispatch loop over one fresh shared directory, then aggregation.  `worlds`
is the request's ambient external world; the dispatch loop never reaches it
(every iteration dies inside `asyncio.run`), so the whole response is
independent of it. -/
def convert (urls : List String) (_worlds : Nat → UrlWorld) : ConvertResponse :=
  if urls.isEmpty then ConvertResponse.badRequest "No URLs provided"
  else if urls.length > 10 then ConvertResponse.badRequest "Máximo 10 URLs por solicitud"
  else
    match urls.find? (fun u => !(is_allowed_url u)) with
    | some u => ConvertResponse.badRequest ("URL no permitida: " ++ u)
    | none => aggregate (dispatchAux urls []).1

/-- One URL's generator run in the streaming endpoint (app.py:205-207): a
FRESH `tmpdir` per URL, so the directory inspected afterwards holds exactly
the files this URL's subprocess produced. -/
def streamRun (u : String) (w : UrlWorld) : RunResult :=
  run_yt_dlp_stream u w.proc w.embed w.proc.produced

/-- `event_generator` of `convert_stream` (app.py:200-210): per URL, an
inline validation error event, or the relayed generator events followed by
the `finalizado` marker; one terminal `event: end` after all URLs.  An
exception escaping `run_yt_dlp_stream` propagates out of the generator and
kills the stream at that point (no marker events follow). -/
def convertStreamEvents : List String → (Nat → UrlWorld) → List Event
  | [], _ => [Event.endOfStream]
  | u :: rest, worlds =>
    if is_allowed_url u then
      match (streamRun u (worlds 0)).exc with
      | some _ => (streamRun u (worlds 0)).events
      | none =>
        (streamRun u (worlds 0)).events ++
          Event.finished u :: convertStreamEvents rest (fun i => worlds (i + 1))
    else
      Event.error u "URL no permitida" :: convertStreamEvents rest (fun i => worlds (i + 1))

/-- `convert_stream` (app.py:194-212): the ONLY validation is non-emptiness
(no count bound, no per-URL allow-list pre-check — those happen inside the
stream); on success the response is the event stream. -/
def convert_stream (urls : List String) (worlds : Nat → UrlWorld) :
    Except String (List Event) :=
  if urls.isEmpty then Except.error "No URLs provided"
  else Except.ok (convertStreamEvents urls worlds)

/-- The per-URL event blocks of the stream, without the terminal marker:
what `event_generator` emits when no exception escapes any URL's run. -/
def streamBlocks : List String → (Nat → UrlWorld) → List Event
  | [], _ => []
  | u :: rest, worlds =>
    (if is_allowed_url u then (streamRun u (worlds 0)).events ++ [Event.finished u]
     else [Event.error u "URL no permitida"]) ++
    streamBlocks rest (fun i => worlds (i + 1))

/-! ### Helper lemmas about the embedding -/

theorem processUrl_snd (u : String) (dir : List DirFile) :
    (processUrl u dir).2 = dir := rfl

theorem run_yt_dlp_stream_nonzero (url : String) (proc : ProcResult) (embed : EmbedBehavior)
    (outdir : List DirFile) (h : proc.returncode ≠ 0) :
    run_yt_dlp_stream url proc embed outdir =
      ⟨progressEvents url proc.stdoutLines ++ [Event.error url (pyTake proc.stderr 300)],
       none, false⟩ := by
  simp [run_yt_dlp_stream, h]

theorem run_yt_dlp_stream_zero_missing (url : String) (proc : ProcResult)
    (embed : EmbedBehavior) (outdir : List DirFile) (h : proc.returncode = 0)
    (hmiss : (detectFiles outdir).mp3_file = none ∨ (detectFiles outdir).info_file = none) :
    run_yt_dlp_stream url proc embed outdir =
      ⟨progressEvents url proc.stdoutLines ++ [Event.error url "No se generó archivo MP3"],
       none, false⟩ := by
  unfold run_yt_dlp_stream
  rw [if_neg (by simp [h])]
  rcases hm : (detectFiles outdir).mp3_file with _ | m <;>
    rcases hi : (detectFiles outdir).info_file with _ | j <;> simp_all

theorem run_yt_dlp_stream_zero_found_exc (url : String) (proc : ProcResult)
    (embed : EmbedBehavior) (outdir : List DirFile) (m j : DirFile) (e : String)
    (h : proc.returncode = 0) (hm : (detectFiles outdir).mp3_file = some m)
    (hi : (detectFiles outdir).info_file = some j)
    (he : embed_metadata (detectFiles outdir).thumb_file embed = some e) :
    run_yt_dlp_stream url proc embed outdir =
      ⟨progressEvents url proc.stdoutLines, some e, true⟩ := by
  unfold run_yt_dlp_stream
  rw [if_neg (by simp [h])]
  simp only [hm, hi, he]

theorem run_yt_dlp_stream_zero_found_ok (url : String) (proc : ProcResult)
    (embed : EmbedBehavior) (outdir : List DirFile) (m j : DirFile)
    (h : proc.returncode = 0) (hm : (detectFiles outdir).mp3_file = some m)
    (hi : (detectFiles outdir).info_file = some j)
    (he : embed_metadata (detectFiles outdir).thumb_file embed = none) :
    run_yt_dlp_stream url proc embed outdir =
      ⟨progressEvents url proc.stdoutLines ++ [Event.done url m.name], none, true⟩ := by
  unfold run_yt_dlp_stream
  rw [if_neg (by simp [h])]
  simp only [hm, hi, he]

theorem dispatchAux_outcomes (urls : List String) (dir : List DirFile) :
    (dispatchAux urls dir).1 =
      urls.map (fun u => Outcome.failure u asyncioRunError) := by
  induction urls generalizing dir with
  | nil => rfl
  | cons u rest ih => simp [dispatchAux, processUrl, processOutcome, ih]

theorem dispatchAux_snd (urls : List String) (dir : List DirFile) :
    (dispatchAux urls dir).2 = dir := by
  induction urls generalizing dir with
  | nil => rfl
  | cons u rest ih => simp [dispatchAux, processUrl, ih dir]

theorem dispatchAux_length (urls : List String) (dir : List DirFile) :
    (dispatchAux urls dir).1.length = urls.length := by
  rw [dispatchAux_outcomes, List.length_map]

theorem dispatchAux_get (urls : List String) (dir : List DirFile) (i : Nat)
    (h : i < urls.length) :
    (dispatchAux urls dir).1[i]? =
      some (Outcome.failure (urls.get ⟨i, h⟩) asyncioRunError) := by
  induction urls generalizing dir i with
  | nil => exact absurd h (Nat.not_lt_zero i)
  | cons u rest ih =>
    cases i with
    | zero => simp [dispatchAux, processUrl, processOutcome, List.get]
    | succ i =>
      have hi : i < rest.length := Nat.lt_of_succ_lt_succ h
      simp only [dispatchAux, List.getElem?_cons_succ, List.get]
      exact ih dir i hi

theorem successPaths_map_failure (urls : List String) :
    successPaths (urls.map (fun u => Outcome.failure u asyncioRunError)) = [] := by
  induction urls with
  | nil => rfl
  | cons u rest ih => simp [successPaths, ih]

theorem all_isFailureDict_iff (results : List Outcome) :
    results.all isFailureDict = true ↔ successPaths results = [] := by
  rw [List.all_eq_true, successPaths, List.filterMap_eq_nil_iff]
  constructor
  · intro h a ha
    have := h a ha
    cases a with
    | success f => simp [isFailureDict] at this
    | failure u e => rfl
  · intro h a ha
    have := h a ha
    cases a with
    | success f => simp at this
    | failure u e => rfl

theorem aggregate_of_no_success (results : List Outcome)
    (h : successPaths results = []) :
    aggregate results = ConvertResponse.allFailed results := by
  rw [aggregate, if_pos ((all_isFailureDict_iff results).mpr h)]

theorem aggregate_of_one_success (results : List Outcome) (m : DirFile)
    (h : successPaths results = [m]) :
    aggregate results = ConvertResponse.singleFile m m.name := by
  have hall : ¬ results.all isFailureDict = true := by
    rw [all_isFailureDict_iff, h]
    simp
  rw [aggregate, if_neg hall, h]

theorem aggregate_of_many_success (results : List Outcome)
    (h : 2 ≤ (successPaths results).length) :
    aggregate results =
      ConvertResponse.zipArchive ((successPaths results).map DirFile.name)
        "descargas.zip" := by
  have hall : ¬ results.all isFailureDict = true := by
    rw [all_isFailureDict_iff]
    intro hnil
    rw [hnil] at h
    simp at h
  rw [aggregate, if_neg hall]
  rcases hs : successPaths results with _ | ⟨a, _ | ⟨b, t⟩⟩
  · rfl
  · rw [hs] at h
    exact absurd h (by simp)
  · rfl

theorem convert_valid (urls : List String) (worlds : Nat → UrlWorld)
    (h1 : urls ≠ []) (h2 : urls.length ≤ 10)
    (h3 : ∀ u ∈ urls, is_allowed_url u = true) :
    convert urls worlds = aggregate (dispatchAux urls []).1 := by
  rw [convert]
  rw [if_neg (by simp [List.isEmpty_iff, h1])]
  rw [if_neg (by omega)]
  have hfind : urls.find? (fun u => !(is_allowed_url u)) = none := by
    rw [List.find?_eq_none]
    intro u hu
    simp [h3 u hu]
  rw [hfind]

theorem endOfStream_not_mem_progress (url : String) (lines : List String) :
    Event.endOfStream ∉ progressEvents url lines := by
  intro hmem
  rw [progressEvents, List.mem_map] at hmem
  rcases hmem with ⟨t, _, ht⟩
  cases ht

theorem endOfStream_not_mem_run (url : String) (proc : ProcResult)
    (embed : EmbedBehavior) (outdir : List DirFile) :
    Event.endOfStream ∉ (run_yt_dlp_stream url proc embed outdir).events := by
  by_cases h : proc.returncode = 0
  · rcases hm : (detectFiles outdir).mp3_file with _ | m
    · rw [run_yt_dlp_stream_zero_missing url proc embed outdir h (Or.inl hm)]
      intro hmem
      rcases List.mem_append.mp hmem with h1 | h1
      · exact endOfStream_not_mem_progress url proc.stdoutLines h1
      · simp at h1
    · rcases hi : (detectFiles outdir).info_file with _ | j
      · rw [run_yt_dlp_stream_zero_missing url proc embed outdir h (Or.inr hi)]
        intro hmem
        rcases List.mem_append.mp hmem with h1 | h1
        · exact endOfStream_not_mem_progress url proc.stdoutLines h1
        · simp at h1
      · rcases he : embed_metadata (detectFiles outdir).thumb_file embed with _ | e
        · rw [run_yt_dlp_stream_zero_found_ok url proc embed outdir m j h hm hi he]
          intro hmem
          rcases List.mem_append.mp hmem with h1 | h1
          · exact endOfStream_not_mem_progress url proc.stdoutLines h1
          · simp at h1
        · rw [run_yt_dlp_stream_zero_found_exc url proc embed outdir m j e h hm hi he]
          exact endOfStream_not_mem_progress url proc.stdoutLines
  · rw [run_yt_dlp_stream_nonzero url proc embed outdir h]
    intro hmem
    rcases List.mem_append.mp hmem with h1 | h1
    · exact endOfStream_not_mem_progress url proc.stdoutLines h1
    · simp at h1

theorem endOfStream_not_mem_streamBlocks (urls : List String) (worlds : Nat → UrlWorld) :
    Event.endOfStream ∉ streamBlocks urls worlds := by
  induction urls generalizing worlds with
  | nil => simp [streamBlocks]
  | cons u rest ih =>
    rw [streamBlocks]
    intro hmem
    rcases List.mem_append.mp hmem with h1 | h1
    · by_cases ha : is_allowed_url u
      · rw [if_pos ha] at h1
        rcases List.mem_append.mp h1 with h2 | h2
        · exact endOfStream_not_mem_run u (worlds 0).proc (worlds 0).embed
            (worlds 0).proc.produced h2
        · simp at h2
      · rw [if_neg ha] at h1
        simp at h1
    · exact ih (fun i => worlds (i + 1)) h1

theorem convertStreamEvents_of_no_exc (urls : List String) (worlds : Nat → UrlWorld)
    (hexc : ∀ i, (hi : i < urls.length) →
      (streamRun (urls.get ⟨i, hi⟩) (worlds i)).exc = none) :
    convertStreamEvents urls worlds = streamBlocks urls worlds ++ [Event.endOfStream] := by
  induction urls generalizing worlds with
  | nil => rfl
  | cons u rest ih =>
    have hrest : ∀ i, (hi : i < rest.length) →
        (streamRun (rest.get ⟨i, hi⟩) ((fun j => worlds (j + 1)) i)).exc = none := by
      intro i hi
      exact hexc (i + 1) (Nat.succ_lt_succ hi)
    rw [convertStreamEvents, streamBlocks]
    by_cases ha : is_allowed_url u
    · rw [if_pos ha, if_pos ha]
      have h0 : (streamRun u (worlds 0)).exc = none := hexc 0 (Nat.succ_pos rest.length)
      rw [h0]
      rw [ih (fun j => worlds (j + 1)) hrest]
      simp [List.append_assoc]
    · rw [if_neg ha, if_neg ha]
      rw [ih (fun j => worlds (j + 1)) hrest]
      simp

theorem streamRun_events_shape (u : String) (w : UrlWorld)
    (h : (streamRun u w).exc = none) :
    ∃ c, (streamRun u w).events = progressEvents u w.proc.stdoutLines ++ [c] ∧
      ((∃ n, c = Event.done u n) ∨ (∃ m, c = Event.error u m)) := by
  rw [streamRun] at *
  by_cases hrc : w.proc.returncode = 0
  · rcases hm : (detectFiles w.proc.produced).mp3_file with _ | m
    · rw [run_yt_dlp_stream_zero_missing u w.proc w.embed w.proc.produced hrc (Or.inl hm)]
      exact ⟨Event.error u "No se generó archivo MP3", rfl, Or.inr ⟨_, rfl⟩⟩
    · rcases hi : (detectFiles w.proc.produced).info_file with _ | j
      · rw [run_yt_dlp_stream_zero_missing u w.proc w.embed w.proc.produced hrc (Or.inr hi)]
        exact ⟨Event.error u "No se generó archivo MP3", rfl, Or.inr ⟨_, rfl⟩⟩
      · rcases he : embed_metadata (detectFiles w.proc.produced).thumb_file w.embed with _ | e
        · rw [run_yt_dlp_stream_zero_found_ok u w.proc w.embed w.proc.produced m j hrc hm hi he]
          exact ⟨Event.done u m.name, rfl, Or.inl ⟨_, rfl⟩⟩
        · rw [run_yt_dlp_stream_zero_found_exc u w.proc w.embed w.proc.produced m j e hrc hm hi he] at h
          cases h
  · rw [run_yt_dlp_stream_nonzero u w.proc w.embed w.proc.produced hrc]
    exact ⟨Event.error u (pyTake w.proc.stderr 300), rfl, Or.inr ⟨_, rfl⟩⟩

/-! ### Claim theorems -/

/-- C9 (confirmed): `is_allowed_url` is a total side-effect-free Boolean
function returning `true` iff the lower-cased input contains one of the two
fixed allow-listed host substrings (`youtube.com`, `youtu.be`) — anywhere in
the string, including inside a query parameter — and `false` iff it contains
neither. -/
theorem c9_is_allowed_url_iff (u : String) :
    is_allowed_url u = true ↔
      ("youtube.com".toList <:+: lowerChars u ∨ "youtu.be".toList <:+: lowerChars u) := by
  rw [is_allowed_url, Bool.or_eq_true]
  simp only [decide_eq_true_eq]

/-- C8 (confirmed): any synchronous request whose URL list is empty, longer
than 10, or containing a URL rejected by the validator gets an HTTP 400
response whose value is independent of the external world — no external
process is consulted and no per-URL processing happens. -/
theorem c8_validation_failfast (urls : List String)
    (h : urls = [] ∨ urls.length > 10 ∨ ∃ u ∈ urls, is_allowed_url u = false) :
    ∃ d, (∀ worlds, convert urls worlds = ConvertResponse.badRequest d) ∧
      (ConvertResponse.badRequest d).status = 400 := by
  by_cases hemp : urls = []
  · exact ⟨"No URLs provided", fun worlds => by rw [convert, if_pos (by simp [hemp])], rfl⟩
  by_cases hlen : urls.length > 10
  · refine ⟨"Máximo 10 URLs por solicitud", fun worlds => ?_, rfl⟩
    rw [convert, if_neg (by simp [List.isEmpty_iff, hemp]), if_pos hlen]
  rcases h with h | h | ⟨u₀, hu₀, hu⟩
  · exact absurd h hemp
  · exact absurd h hlen
  · have hsome : (urls.find? (fun u => !(is_allowed_url u))).isSome := by
      rw [List.find?_isSome]
      exact ⟨u₀, hu₀, by simp [hu]⟩
    rcases Option.isSome_iff_exists.mp hsome with ⟨v, hv⟩
    refine ⟨"URL no permitida: " ++ v, fun worlds => ?_, rfl⟩
    rw [convert, if_neg (by simp [List.isEmpty_iff, hemp]), if_neg hlen, hv]

/-- Witness for C8 at a concrete disallowed URL. -/
theorem c8_witness :
    ∃ d, (∀ worlds, convert ["https://example.com/x"] worlds = ConvertResponse.badRequest d) ∧
      (ConvertResponse.badRequest d).status = 400 :=
  c8_validation_failfast ["https://example.com/x"]
    (Or.inr (Or.inr ⟨"https://example.com/x", by simp, by decide⟩))

/-- Eleven allow-listed URLs — one more than the documented maximum. -/
def c5urls : List String := List.replicate 11 "https://youtube.com/watch?v=a"

/-- A world whose subprocess exits 0 without producing any file. -/
def c5world : UrlWorld :=
  { proc := { stdoutLines := [], returncode := 0, stderr := "", produced := [] },
    embed := { tagExc := none, coverExc := none, coverIsID3Error := false } }

/-- C5 counterexample: the claim says BOTH conversion endpoints reject a batch
of more than 10 URLs with a client error before any external process is
invoked.  The streaming endpoint has no count check: with 11 URLs it answers
`200 OK` and processes every URL — the stream contains the per-URL events of
all 11 invocations (2 events per URL plus the terminal marker). -/
theorem c5_counterexample :
    c5urls.length = 11 ∧
    convert_stream c5urls (fun _ => c5world) =
      Except.ok (convertStreamEvents c5urls (fun _ => c5world)) ∧
    (convertStreamEvents c5urls (fun _ => c5world)).length = 23 ∧
    Event.finished "https://youtube.com/watch?v=a" ∈
      convertStreamEvents c5urls (fun _ => c5world) :=
  ⟨by decide, rfl, by decide, by decide⟩

/-- C5 as amended: only the synchronous endpoint rejects a batch of more than
10 URLs (HTTP 400, before any external process runs — the response does not
depend on the world); the streaming endpoint performs no count check and
simply streams the processing of every URL. -/
theorem c5_amended_max_count (urls : List String) (worlds : Nat → UrlWorld)
    (h : urls.length > 10) :
    convert urls worlds = ConvertResponse.badRequest "Máximo 10 URLs por solicitud" ∧
    (ConvertResponse.badRequest "Máximo 10 URLs por solicitud").status = 400 ∧
    convert_stream urls worlds = Except.ok (convertStreamEvents urls worlds) := by
  have hne : urls ≠ [] := by
    intro hnil
    rw [hnil] at h
    simp at h
  refine ⟨?_, rfl, ?_⟩
  · rw [convert, if_neg (by simp [List.isEmpty_iff, hne]), if_pos h]
  · rw [convert_stream, if_neg (by simp [List.isEmpty_iff, hne])]

/-- Witness for the amended C5 at the concrete 11-URL batch. -/
theorem c5_witness :
    convert c5urls (fun _ => c5world) =
      ConvertResponse.badRequest "Máximo 10 URLs por solicitud" ∧
    (ConvertResponse.badRequest "Máximo 10 URLs por solicitud").status = 400 ∧
    convert_stream c5urls (fun _ => c5world) =
      Except.ok (convertStreamEvents c5urls (fun _ => c5world)) :=
  c5_amended_max_count c5urls (fun _ => c5world) (by decide)

/-- C1 (code_bug evidence): the claim (and the aggregation block at
app.py:175-191, which faithfully implements it) describes zero-success → 500
with the outcome list, one success → direct download, many → zip.  But the
dispatch loop's `asyncio.run(run_yt_dlp_stream(...))` raises `ValueError`
for every URL, so the batch result of EVERY valid request is all failures
carrying that message: the response is always the all-failed 500 — whatever
the external world would have done — and the single-file and archive
branches are dead code. -/
theorem c1_sync_always_all_failed (urls : List String) (worlds : Nat → UrlWorld)
    (h1 : urls ≠ []) (h2 : urls.length ≤ 10)
    (h3 : ∀ u ∈ urls, is_allowed_url u = true) :
    convert urls worlds =
      ConvertResponse.allFailed
        (urls.map (fun u => Outcome.failure u asyncioRunError)) ∧
    (convert urls worlds).status = 500 := by
  have hc := convert_valid urls worlds h1 h2 h3
  have hd := dispatchAux_outcomes urls []
  have heq : convert urls worlds =
      ConvertResponse.allFailed (urls.map (fun u => Outcome.failure u asyncioRunError)) := by
    rw [hc, hd, aggregate_of_no_success _ (successPaths_map_failure urls)]
  exact ⟨heq, by rw [heq]; rfl⟩

/-- One allow-listed URL for the C1 witness. -/
def c1urls : List String := ["https://youtu.be/a"]

/-- A world in which the extraction WOULD succeed (exit 0, mp3 and sidecar
produced, embedding fine) — yet the endpoint still answers the all-failed
500, because the subprocess is never started. -/
def c1world : UrlWorld :=
  { proc := { stdoutLines := [], returncode := 0, stderr := "",
              produced := [⟨"songA.mp3", ".mp3"⟩, ⟨"songA.info.json", ".json"⟩] },
    embed := { tagExc := none, coverExc := none, coverIsID3Error := false } }

/-- Witness for C1: even with a world where extraction would succeed, the
response is the all-failed 500. -/
theorem c1_witness :
    convert c1urls (fun _ => c1world) =
      ConvertResponse.allFailed
        (c1urls.map (fun u => Outcome.failure u asyncioRunError)) ∧
    (convert c1urls (fun _ => c1world)).status = 500 :=
  c1_sync_always_all_failed c1urls (fun _ => c1world) (by decide) (by decide) (by decide)

/-- Two allow-listed URLs for the C2 counterexample. -/
def c2urls : List String := ["https://youtube.com/a", "https://youtube.com/b"]

/-- C2 worlds: URL 0's extraction WOULD succeed (exit 0, mp3 and sidecar),
URL 1's WOULD fail (nonzero exit, nothing produced). -/
def c2worlds : Nat → UrlWorld := fun i =>
  if i = 0 then
    { proc := { stdoutLines := [], returncode := 0, stderr := "",
                produced := [⟨"songA.mp3", ".mp3"⟩, ⟨"songA.info.json", ".json"⟩] },
      embed := { tagExc := none, coverExc := none, coverIsID3Error := false } }
  else
    { proc := { stdoutLines := [], returncode := 1, stderr := "ERROR: boom", produced := [] },
      embed := { tagExc := none, coverExc := none, coverIsID3Error := false } }

/-- C2 counterexample: the claim says each URL runs in its own freshly
created working directory, and that a failure of extraction or embedding is
what gets recorded as a per-URL failure.  At `c2worlds` the claim predicts
outcome 0 = success (URL 0's extraction and embedding succeed) and outcome 1
= a failure carrying URL 1's extraction error.  Really ONE directory is
created for the whole request (app.py:161) and neither extraction is ever
started: `asyncio.run` raises for both URLs and both outcomes are the
`ValueError` failure — independent of the external world. -/
theorem c2_counterexample :
    (c2worlds 0).proc.returncode = 0 ∧ (c2worlds 1).proc.returncode ≠ 0 ∧
    convert c2urls c2worlds =
      ConvertResponse.allFailed
        [Outcome.failure "https://youtube.com/a" asyncioRunError,
         Outcome.failure "https://youtube.com/b" asyncioRunError] := by
  decide

/-- C2 as amended: URLs are processed in input order against ONE working
directory created once per request and shared by the whole batch — and never
populated, since no subprocess is ever invoked; every URL's processing fails
immediately inside the `try` block (the `asyncio.run` `ValueError`), and that
failure is recorded as a per-URL failure outcome carrying the URL and the
exception message without aborting the rest of the batch; the batch result
has exactly one outcome per input URL, positionally. -/
theorem c2_amended_dispatch (urls : List String) (dir : List DirFile) :
    (dispatchAux urls dir).1 =
      urls.map (fun u => Outcome.failure u asyncioRunError) ∧
    (dispatchAux urls dir).1.length = urls.length ∧
    (∀ i, (h : i < urls.length) →
      (dispatchAux urls dir).1[i]? =
        some (Outcome.failure (urls.get ⟨i, h⟩) asyncioRunError)) ∧
    (dispatchAux urls dir).2 = dir :=
  ⟨dispatchAux_outcomes urls dir, dispatchAux_length urls dir,
   fun i h => dispatchAux_get urls dir i h, dispatchAux_snd urls dir⟩

/-- Witness for the amended C2 at the concrete two-URL batch. -/
theorem c2_witness :
    (dispatchAux c2urls []).1 =
      c2urls.map (fun u => Outcome.failure u asyncioRunError) ∧
    (dispatchAux c2urls []).1.length = c2urls.length ∧
    (∀ i, (h : i < c2urls.length) →
      (dispatchAux c2urls []).1[i]? =
        some (Outcome.failure (c2urls.get ⟨i, h⟩) asyncioRunError)) ∧
    (dispatchAux c2urls []).2 = [] :=
  c2_amended_dispatch c2urls []

/-- The two-URL batch of the C10 evaluation. -/
def c10urls : List String := ["https://youtube.com/a", "https://youtube.com/b"]

/-- C10 worlds: URL 0's extraction WOULD produce an mp3 and sidecar; URL 1's
WOULD exit nonzero producing nothing — the very scenario in which the claim
predicts the cross-URL mp3 leak. -/
def c10worlds : Nat → UrlWorld := fun i =>
  if i = 0 then
    { proc := { stdoutLines := [], returncode := 0, stderr := "",
                produced := [⟨"songA.mp3", ".mp3"⟩, ⟨"songA.info.json", ".json"⟩] },
      embed := { tagExc := none, coverExc := none, coverIsID3Error := false } }
  else
    { proc := { stdoutLines := [], returncode := 1, stderr := "ERROR: boom", produced := [] },
      embed := { tagExc := none, coverExc := none, coverIsID3Error := false } }

/-- C10 (code_bug evidence): the claim describes the dispatch loop as
written — shared directory, success = first `*.mp3` glob match, nonzero exit
only yielding an error event, hence a later failing URL recorded as a
success on an earlier URL's mp3.  That is what the loop WOULD do if the
generator were driven (the comment at app.py:168, `ejecución sin streaming
aquí`, shows the author believed it is), but `asyncio.run` raises before any
subprocess runs: at the very input meant to exhibit the leak, both outcomes
are the `ValueError` failure, no outcome of any batch is ever a success, and
the shared directory stays empty. -/
theorem c10_sync_never_succeeds :
    convert c10urls c10worlds =
      ConvertResponse.allFailed
        [Outcome.failure "https://youtube.com/a" asyncioRunError,
         Outcome.failure "https://youtube.com/b" asyncioRunError] ∧
    (∀ o ∈ (dispatchAux c10urls []).1, isFailureDict o = true) ∧
    (dispatchAux c10urls []).2 = [] := by decide

/-- The URL of the C3 counterexample. -/
def c3url : String := "https://youtu.be/x"

/-- C3 world: the subprocess exits 0 and produces an mp3 but NO metadata
sidecar. -/
def c3world : UrlWorld :=
  { proc := { stdoutLines := [], returncode := 0, stderr := "",
              produced := [⟨"song.mp3", ".mp3"⟩] },
    embed := { tagExc := none, coverExc := none, coverIsID3Error := false } }

/-- C3 counterexample: the claim says the absence of the metadata sidecar is
tolerated with a logged warning and "never recorded as a failure".  With an
mp3 produced but no sidecar, `run_yt_dlp_stream`'s completion event is the
ERROR event `No se generó archivo MP3` (there is no warning path), so the
streaming endpoint reports this situation as a per-URL failure. -/
theorem c3_counterexample :
    (detectFiles c3world.proc.produced).mp3_file = some ⟨"song.mp3", ".mp3"⟩ ∧
    (detectFiles c3world.proc.produced).info_file = none ∧
    convertStreamEvents [c3url] (fun _ => c3world) =
      [Event.error c3url "No se generó archivo MP3", Event.finished c3url,
       Event.endOfStream] := by decide

/-- C3 as amended: the audio-without-sidecar situation is reachable only via
the streaming endpoint (the synchronous path never invokes extraction, its
outcome being the `asyncio.run` failure regardless).  There, embedding is
skipped (`embedRan = false`) but NOT with a logged warning: the generator
emits the error completion event `No se generó archivo MP3` and does not
raise — the absence of the sidecar IS reported as a per-URL failure event. -/
theorem c3_amended_sidecar (u : String) (w : UrlWorld)
    (hrc : w.proc.returncode = 0)
    (hinfo : (detectFiles w.proc.produced).info_file = none) :
    (streamRun u w).events =
      progressEvents u w.proc.stdoutLines ++
        [Event.error u "No se generó archivo MP3"] ∧
    (streamRun u w).embedRan = false ∧
    (streamRun u w).exc = none := by
  have hrun := run_yt_dlp_stream_zero_missing u w.proc w.embed w.proc.produced
    hrc (Or.inr hinfo)
  unfold streamRun
  rw [hrun]
  exact ⟨rfl, rfl, rfl⟩

/-- Witness for the amended C3 at the concrete world: the error completion
event is emitted, embedding never ran, nothing raised. -/
theorem c3_witness :
    (streamRun c3url c3world).events =
      progressEvents c3url c3world.proc.stdoutLines ++
        [Event.error c3url "No se generó archivo MP3"] ∧
    (streamRun c3url c3world).embedRan = false ∧
    (streamRun c3url c3world).exc = none :=
  c3_amended_sidecar c3url c3world (by decide) (by decide)

/-- The URL of the C4 counterexample. -/
def c4url : String := "https://youtu.be/y"

/-- C4 world: extraction succeeds (mp3 + sidecar produced) but the tag
writing section raises (e.g. `ID3NoHeaderError` from `EasyID3`). -/
def c4world : UrlWorld :=
  { proc := { stdoutLines := [], returncode := 0, stderr := "",
              produced := [⟨"song.mp3", ".mp3"⟩, ⟨"song.info.json", ".json"⟩] },
    embed := { tagExc := some "ID3NoHeaderError", coverExc := none,
               coverIsID3Error := false } }

/-- C4 counterexample: the claim says any exception during metadata tag
writing is caught and logged and the audio file is still reported as the
successful outcome.  In the streaming endpoint — the only path that ever
reaches `embed_metadata` — a tag-writing exception escapes the generator
uncaught and kills the stream: with an mp3 and sidecar produced, the stream
for this URL is EMPTY (no done event ever reports the file); and in the
synchronous endpoint the outcome is the `asyncio.run` failure, not a
success. -/
theorem c4_counterexample :
    (detectFiles c4world.proc.produced).mp3_file = some ⟨"song.mp3", ".mp3"⟩ ∧
    (streamRun c4url c4world).exc = some "ID3NoHeaderError" ∧
    convertStreamEvents [c4url] (fun _ => c4world) = [] ∧
    (processUrl c4url []).1 = Outcome.failure c4url asyncioRunError := by decide

/-- C4 as amended: in the streaming endpoint (the only path reaching
`embed_metadata`), an `ID3Error` raised during cover-art attachment is caught
inside `embed_metadata` and logged, leaving the outcome unchanged — the done
event still reports the audio file; any exception raised during the
tag-writing section escapes `embed_metadata` and the generator, which
nothing catches: the stream dies with no completion event for that URL.  In
the synchronous endpoint `embed_metadata` is never reached at all: every
per-URL outcome is already the `asyncio.run` failure. -/
theorem c4_amended_embed_exceptions :
    (∀ (u : String) (w : UrlWorld) (m j : DirFile),
      w.proc.returncode = 0 → w.embed.tagExc = none → w.embed.coverIsID3Error = true →
      (detectFiles w.proc.produced).mp3_file = some m →
      (detectFiles w.proc.produced).info_file = some j →
      (streamRun u w).events =
        progressEvents u w.proc.stdoutLines ++ [Event.done u m.name] ∧
      (streamRun u w).exc = none) ∧
    (∀ (u : String) (w : UrlWorld) (m j : DirFile) (e : String),
      w.proc.returncode = 0 → w.embed.tagExc = some e →
      (detectFiles w.proc.produced).mp3_file = some m →
      (detectFiles w.proc.produced).info_file = some j →
      (streamRun u w).exc = some e ∧
      (streamRun u w).events = progressEvents u w.proc.stdoutLines) ∧
    (∀ (u : String) (dir : List DirFile),
      (processUrl u dir).1 = Outcome.failure u asyncioRunError) := by
  refine ⟨?_, ?_, fun u dir => rfl⟩
  · intro u w m j hrc htag hid3 hm hi
    have hemb : embed_metadata (detectFiles w.proc.produced).thumb_file
        w.embed = none := by
      unfold embed_metadata
      rw [htag]
      rcases (detectFiles w.proc.produced).thumb_file with _ | t
      · rfl
      · rcases hc : w.embed.coverExc with _ | e0
        · rfl
        · simp [hid3]
    have hrun := run_yt_dlp_stream_zero_found_ok u w.proc w.embed
      w.proc.produced m j hrc hm hi hemb
    unfold streamRun
    rw [hrun]
    exact ⟨rfl, rfl⟩
  · intro u w m j e hrc htag hm hi
    have hemb : embed_metadata (detectFiles w.proc.produced).thumb_file
        w.embed = some e := by
      unfold embed_metadata
      rw [htag]
    have hrun := run_yt_dlp_stream_zero_found_exc u w.proc w.embed
      w.proc.produced m j e hrc hm hi hemb
    unfold streamRun
    rw [hrun]
    exact ⟨rfl, rfl⟩

/-- C4 world for the tolerated branch of the witness: cover attachment raises
an `ID3Error`, which is swallowed. -/
def c4coverWorld : UrlWorld :=
  { proc := { stdoutLines := [], returncode := 0, stderr := "",
              produced := [⟨"song.mp3", ".mp3"⟩, ⟨"song.info.json", ".json"⟩,
                           ⟨"song.jpg", ".jpg"⟩] },
    embed := { tagExc := none, coverExc := some "unable to attach APIC frame",
               coverIsID3Error := true } }

/-- Witness for the amended C4: an `ID3Error` during cover attachment still
yields the done event reporting the mp3; a tag-writing exception escapes the
generator; the sync outcome is always the `asyncio.run` failure. -/
theorem c4_witness :
    ((streamRun c4url c4coverWorld).events =
      progressEvents c4url c4coverWorld.proc.stdoutLines ++
        [Event.done c4url "song.mp3"] ∧
     (streamRun c4url c4coverWorld).exc = none) ∧
    ((streamRun c4url c4world).exc = some "ID3NoHeaderError" ∧
     (streamRun c4url c4world).events =
       progressEvents c4url c4world.proc.stdoutLines) ∧
    (processUrl c4url []).1 = Outcome.failure c4url asyncioRunError :=
  ⟨c4_amended_embed_exceptions.1 c4url c4coverWorld ⟨"song.mp3", ".mp3"⟩
      ⟨"song.info.json", ".json"⟩
      (by decide) (by decide) (by decide) (by decide) (by decide),
   c4_amended_embed_exceptions.2.1 c4url c4world ⟨"song.mp3", ".mp3"⟩
      ⟨"song.info.json", ".json"⟩ "ID3NoHeaderError"
      (by decide) (by decide) (by decide) (by decide),
   c4_amended_embed_exceptions.2.2 c4url []⟩

/-- The URL of the C6 counterexample. -/
def c6url : String := "https://youtube.com/watch?v=z"

/-- Diagnostic text of the bot-check rejection yt-dlp emits. -/
def c6stderr : String :=
  "ERROR: [youtube] z: Sign in to confirm that you are not a bot. Use --cookies."

/-- C6 world: the subprocess exits 1 with bot-check phrasing on stderr. -/
def c6world : UrlWorld :=
  { proc := { stdoutLines := [], returncode := 1, stderr := c6stderr, produced := [] },
    embed := { tagExc := none, coverExc := none, coverIsID3Error := false } }

/-- C6 counterexample: the claim says that in blocking (synchronous)
execution a nonzero exit makes the per-URL processing fail with the captured
truncated error text, with an authentication-specific classification on
bot-check phrasing.  Really no blocking execution of the tool exists: the
synchronous per-URL failure message is the `asyncio.run` `ValueError` text —
the tool never runs and its stderr is never captured — and the only place a
nonzero exit surfaces (the streaming generator) carries the stderr verbatim
with no classification despite the bot-check phrasing. -/
theorem c6_counterexample :
    (streamRun c6url c6world).events = [Event.error c6url c6stderr] ∧
    convert [c6url] (fun _ => c6world) =
      ConvertResponse.allFailed [Outcome.failure c6url asyncioRunError] := by decide

/-- C6 as amended: (a) in the streaming generator — the only execution mode
of the external tool — a nonzero exit yields an error event carrying the
stderr text truncated to 300 characters, with no authentication/bot-check
special-casing, and does not raise; (b) in the synchronous endpoint the tool
is never executed and every per-URL failure message is the `asyncio.run`
`ValueError` text, never the captured error text. -/
theorem c6_amended_nonzero_exit :
    (∀ (url : String) (proc : ProcResult) (embed : EmbedBehavior) (outdir : List DirFile),
      proc.returncode ≠ 0 →
      (run_yt_dlp_stream url proc embed outdir).events =
        progressEvents url proc.stdoutLines ++
          [Event.error url (pyTake proc.stderr 300)] ∧
      (run_yt_dlp_stream url proc embed outdir).exc = none) ∧
    (∀ (u : String) (dir : List DirFile),
      (processUrl u dir).1 = Outcome.failure u asyncioRunError) := by
  constructor
  · intro url proc embed outdir hrc
    rw [run_yt_dlp_stream_nonzero url proc embed outdir hrc]
    exact ⟨rfl, rfl⟩
  · intro u dir
    rfl

/-- Witness for the amended C6 at the concrete bot-check world. -/
theorem c6_witness :
    ((run_yt_dlp_stream c6url c6world.proc c6world.embed []).events =
      progressEvents c6url c6world.proc.stdoutLines ++
        [Event.error c6url (pyTake c6world.proc.stderr 300)] ∧
     (run_yt_dlp_stream c6url c6world.proc c6world.embed []).exc = none) ∧
    (processUrl c6url []).1 = Outcome.failure c6url asyncioRunError :=
  ⟨c6_amended_nonzero_exit.1 c6url c6world.proc c6world.embed [] (by decide),
   c6_amended_nonzero_exit.2 c6url []⟩

/-- The URL of the C7 counterexample. -/
def c7url : String := "https://youtu.be/q"

/-- C7 world: a valid URL whose extraction succeeds but whose tag writing
raises; the exception escapes the generator and kills the event stream. -/
def c7world : UrlWorld :=
  { proc := { stdoutLines := ["[download] 50%"], returncode := 0, stderr := "",
              produced := [⟨"song.mp3", ".mp3"⟩, ⟨"song.info.json", ".json"⟩] },
    embed := { tagExc := some "boom", coverExc := none, coverIsID3Error := false } }

/-- C7 counterexample: the claim says a valid URL's events are followed by a
completion event, then a finished marker, and that exactly one terminal
end-of-stream marker is emitted after all URLs.  When `embed_metadata` raises,
the exception propagates out of `event_generator` and the stream stops dead:
only the progress event is emitted — no completion event, no finished marker,
and zero end-of-stream markers. -/
theorem c7_counterexample :
    convertStreamEvents [c7url] (fun _ => c7world) =
      [Event.progress c7url "[download] 50%"] ∧
    Event.finished c7url ∉ convertStreamEvents [c7url] (fun _ => c7world) ∧
    Event.endOfStream ∉ convertStreamEvents [c7url] (fun _ => c7world) := by decide

/-- C7 as amended: provided no URL's run lets an exception escape (in
particular, metadata embedding raises for no URL), the stream is exactly the
per-URL blocks — an immediate error event for each invalid URL; for each
valid URL one progress event per non-blank stripped output line in emission
order, then one completion event carrying either the produced file's name or
an error, then that URL's finished marker — followed by exactly one terminal
end-of-stream marker.  If an exception escapes, the stream is cut short at
that URL (see the counterexample). -/
theorem c7_amended_stream_shape (urls : List String) (worlds : Nat → UrlWorld)
    (hexc : ∀ i, (hi : i < urls.length) →
      (streamRun (urls.get ⟨i, hi⟩) (worlds i)).exc = none) :
    convertStreamEvents urls worlds = streamBlocks urls worlds ++ [Event.endOfStream] ∧
    (convertStreamEvents urls worlds).count Event.endOfStream = 1 ∧
    (∀ (u : String) (w : UrlWorld), (streamRun u w).exc = none →
      ∃ c, (streamRun u w).events = progressEvents u w.proc.stdoutLines ++ [c] ∧
        ((∃ n, c = Event.done u n) ∨ (∃ m, c = Event.error u m))) := by
  have h1 := convertStreamEvents_of_no_exc urls worlds hexc
  refine ⟨h1, ?_, fun u w h => streamRun_events_shape u w h⟩
  rw [h1, List.count_append]
  have h0 : (streamBlocks urls worlds).count Event.endOfStream = 0 :=
    List.count_eq_zero.mpr (endOfStream_not_mem_streamBlocks urls worlds)
  rw [h0]
  rfl

/-- The world of the C7 witness: a valid URL, one progress line, successful
extraction and embedding. -/
def c7okWorld : UrlWorld :=
  { proc := { stdoutLines := ["[download] 100%"], returncode := 0, stderr := "",
              produced := [⟨"song.mp3", ".mp3"⟩, ⟨"song.info.json", ".json"⟩] },
    embed := { tagExc := none, coverExc := none, coverIsID3Error := false } }

/-- Witness for the amended C7 at a concrete one-URL batch with no escaping
exception. -/
theorem c7_witness :
    convertStreamEvents [c7url] (fun _ => c7okWorld) =
      streamBlocks [c7url] (fun _ => c7okWorld) ++ [Event.endOfStream] ∧
    (convertStreamEvents [c7url] (fun _ => c7okWorld)).count Event.endOfStream = 1 ∧
    (∀ (u : String) (w : UrlWorld), (streamRun u w).exc = none →
      ∃ c, (streamRun u w).events = progressEvents u w.proc.stdoutLines ++ [c] ∧
        ((∃ n, c = Event.done u n) ∨ (∃ m, c = Event.error u m))) :=
  c7_amended_stream_shape [c7url] (fun _ => c7okWorld) (by
    intro i hi
    have h0 : i = 0 := Nat.lt_one_iff.mp hi
    subst h0
    rfl)
